import Mathlib

/-!
# Verification of the router-health-assistant analysis pipeline

A shallow embedding, in Lean 4, of the pure analysis core of the
router-health-assistant repository: the Python string helpers the parsers
rely on, the fallback parsers, the component analyzers, the health scorer,
and the session driver's output post-processing.  Each definition is a
direct transcription of the corresponding Python function; doc comments
name the source file and function.

Python string semantics are modelled for the ASCII subset the device
outputs use: str.strip / str.split / str.splitlines / substring tests /
upper / lower are transcribed on lists of characters.  Python binary64
float arithmetic (used in the memory-percentage computation) is modelled
exactly, as round-to-nearest-even over rationals represented by integer
pairs.
-/

/-! ## Python string primitives (ASCII model) -/

/-- Python whitespace characters (ASCII subset): space, tab, newline,
carriage return, vertical tab, form feed. -/
def pyIsSpace (c : Char) : Bool :=
  c = ' ' || c = '\t' || c = '\n' || c = '\r' || c = '\x0b' || c = '\x0c'

/-- ASCII decimal digit test (model of the `\d` regex class and of
`str.isdigit` on device output). -/
def pyIsDigit (c : Char) : Bool :=
  '0' ≤ c && c ≤ '9'

/-- Drop leading Python whitespace. -/
def stripLeadL : List Char → List Char
  | [] => []
  | c :: rest => if pyIsSpace c then stripLeadL rest else c :: rest

/-- Model of Python `str.strip()` on a character list: drop leading and
trailing whitespace. -/
def stripL (s : List Char) : List Char :=
  (stripLeadL (stripLeadL s.reverse).reverse)

/-- Auxiliary for `splitWsL`: accumulate the current word. -/
def splitWsAux : List Char → List Char → List (List Char)
  | [], acc => if acc.isEmpty then [] else [acc]
  | c :: rest, acc =>
      if pyIsSpace c then
        if acc.isEmpty then splitWsAux rest [] else acc :: splitWsAux rest []
      else
        splitWsAux rest (acc ++ [c])

/-- Model of Python `str.split()` with no argument: split on runs of
whitespace, discarding empty words. -/
def splitWsL (s : List Char) : List (List Char) :=
  splitWsAux s []

/-- Auxiliary for `splitlinesL`: accumulate the current line, treating
`\r\n`, `\r` and `\n` as line terminators (the terminators occurring in
device output). -/
def splitlinesAux : List Char → List Char → List (List Char)
  | [], acc => if acc.isEmpty then [] else [acc]
  | '\r' :: '\n' :: rest, acc => acc :: splitlinesAux rest []
  | '\r' :: rest, acc => acc :: splitlinesAux rest []
  | '\n' :: rest, acc => acc :: splitlinesAux rest []
  | c :: rest, acc => splitlinesAux rest (acc ++ [c])

/-- Model of Python `str.splitlines()`: no trailing empty line for a
trailing terminator, `""` yields `[]`. -/
def splitlinesL (s : List Char) : List (List Char) :=
  splitlinesAux s []

/-- Model of Python `str.startswith` / `re.match` on a literal prefix. -/
def isPrefixL : List Char → List Char → Bool
  | [], _ => true
  | _ :: _, [] => false
  | a :: as, b :: bs => a = b && isPrefixL as bs

/-- Model of the Python `in` operator on strings: substring containment. -/
def containsSubL (needle : List Char) : List Char → Bool
  | [] => isPrefixL needle []
  | c :: rest => isPrefixL needle (c :: rest) || containsSubL needle rest

/-- ASCII model of Python `str.upper()`. -/
def upperL (s : List Char) : List Char :=
  s.map Char.toUpper

/-- ASCII model of Python `str.lower()`. -/
def lowerL (s : List Char) : List Char :=
  s.map Char.toLower

/-- String wrappers over the list-level primitives. -/
def pyStrip (s : String) : String := ⟨stripL s.data⟩

/-- Python `str.split()` on a `String`. -/
def pySplit (s : String) : List String :=
  (splitWsL s.data).map (fun w => ⟨w⟩)

/-- Python `str.splitlines()` on a `String`. -/
def pySplitlines (s : String) : List String :=
  (splitlinesL s.data).map (fun w => ⟨w⟩)

/-- Python `sub in s` on `String`s. -/
def pyContains (needle s : String) : Bool := containsSubL needle.data s.data

/-- Python `s.startswith(p)` on `String`s. -/
def pyStartsWith (p s : String) : Bool := isPrefixL p.data s.data

/-- Python `s.upper()` on `String`s. -/
def pyUpper (s : String) : String := ⟨upperL s.data⟩

/-- Python `s.lower()` on `String`s. -/
def pyLower (s : String) : String := ⟨lowerL s.data⟩

/-- Python `"\n".join(lines)`. -/
def joinNL : List String → String
  | [] => ""
  | [l] => l
  | l :: rest => l ++ "\n" ++ joinNL rest

/-! ## Model of Python `int(str)` and `str.isdigit` -/

/-- Digit-run accumulator: digits with single underscores allowed between
digits, as accepted by Python `int()`. -/
def intDigitsAux : List Char → ℕ → Option ℕ
  | [], acc => some acc
  | c :: rest, acc =>
      if pyIsDigit c then intDigitsAux rest (acc * 10 + (c.toNat - 48))
      else if c = '_' then
        match rest with
        | c2 :: rest2 =>
            if pyIsDigit c2 then intDigitsAux rest2 (acc * 10 + (c2.toNat - 48))
            else none
        | [] => none
      else none

/-- Parse a nonempty digit run (with underscore grouping) to a natural. -/
def intDigits : List Char → Option ℕ
  | [] => none
  | c :: rest =>
      if pyIsDigit c then intDigitsAux rest (c.toNat - 48) else none

/-- Model of Python `int(s)` for ASCII text: surrounding whitespace is
ignored, then an optional sign followed by digits; `none` models a raised
`ValueError`. -/
def pyIntOfString (s : String) : Option ℤ :=
  match stripL s.data with
  | [] => none
  | c :: rest =>
      if c = '-' then (intDigits rest).map (fun n => -(n : ℤ))
      else if c = '+' then (intDigits rest).map (fun n => (n : ℤ))
      else (intDigits (c :: rest)).map (fun n => (n : ℤ))

/-- Model of Python `str.isdigit()` (ASCII): nonempty and all digits. -/
def pyIsdigitStr (s : String) : Bool :=
  !s.data.isEmpty && s.data.all pyIsDigit

/-- Model of Python `str.split(sep)` for a one-character separator: empty
parts are kept, `""` yields `[""]`. -/
def splitSepAux (sep : Char) : List Char → List Char → List (List Char)
  | [], acc => [acc]
  | c :: rest, acc =>
      if c = sep then acc :: splitSepAux sep rest []
      else splitSepAux sep rest (acc ++ [c])

/-- `s.split(sep)` on `String`s. -/
def pySplitSep (sep : Char) (s : String) : List String :=
  (splitSepAux sep s.data []).map (fun w => ⟨w⟩)

/-- Consume a maximal run of digits. -/
def digitsMany : List Char → List Char
  | [] => []
  | c :: rest => if pyIsDigit c then digitsMany rest else c :: rest

/-- Consume one-or-more digits; `none` if the list does not start with a
digit (model of the regex atom `\d+`). -/
def digits1 : List Char → Option (List Char)
  | [] => none
  | c :: rest => if pyIsDigit c then some (digitsMany rest) else none

/-- Consume a literal dot followed by one-or-more digits. -/
def dotDigits : List Char → Option (List Char)
  | '.' :: rest => digits1 rest
  | _ => none

/-- Model of `re.match(r'^\d+\.\d+\.\d+\.\d+', s)` succeeding: the string
starts with four dot-separated digit runs. -/
def ipv4StartL (s : List Char) : Bool :=
  (do
    let r1 ← digits1 s
    let r2 ← dotDigits r1
    let r3 ← dotDigits r2
    let _ ← dotDigits r3
    pure ()).isSome

/-- `ipv4StartL` on `String`s. -/
def pyIpv4Start (s : String) : Bool := ipv4StartL s.data

/-! ## Health scorer (src/scoring/health_score.py) -/

/-- The component-status mapping passed to the scorer: a Python dict whose
keys may be absent (`.get` defaults apply). -/
structure ComponentStatuses where
  interface_health : Option String
  cpu_health : Option String
  memory_health : Option String
  bgp_health : Option String
  ospf_health : Option String
deriving DecidableEq, Repr

/-- `HealthScorer.calculate_overall_health`
(src/scoring/health_score.py lines 8-56): strict AND of the required-good
conditions, with BGP and OSPF checked only when configured and an OSPF
WARNING tolerated. -/
def calculateOverallHealth (m : ComponentStatuses) : String :=
  let interface_health := m.interface_health.getD "Unknown"
  let cpu_health := m.cpu_health.getD "Unknown"
  let memory_health := m.memory_health.getD "Unknown"
  let bgp_health := m.bgp_health.getD "NOT_CONFIGURED"
  let ospf_health := m.ospf_health.getD "NOT_CONFIGURED"
  if ¬(interface_health = "Good" ∧ cpu_health = "OK" ∧ memory_health = "OK") then
    "UNHEALTHY"
  else if bgp_health ≠ "NOT_CONFIGURED" ∧ bgp_health ≠ "OK" then
    "UNHEALTHY"
  else if ospf_health ≠ "NOT_CONFIGURED" ∧ ospf_health = "CRITICAL" then
    "UNHEALTHY"
  else
    "HEALTHY"

/-! ## Theorems: claim C1 -/

/-- **C1.** For every mapping of component statuses,
`HealthScorer.calculate_overall_health` returns HEALTHY iff
interface = Good, cpu = OK, memory = OK, BGP is NOT_CONFIGURED or OK, and
OSPF is NOT_CONFIGURED or not CRITICAL; in particular OSPF WARNING does
not force UNHEALTHY, and with interface=Good, cpu=OK, memory=OK,
bgp=NOT_CONFIGURED the result is HEALTHY for ospf=WARNING and UNHEALTHY
for ospf=CRITICAL. -/
theorem scorer_healthy_iff :
    (∀ m : ComponentStatuses,
      calculateOverallHealth m = "HEALTHY" ↔
        (m.interface_health.getD "Unknown" = "Good" ∧
         m.cpu_health.getD "Unknown" = "OK" ∧
         m.memory_health.getD "Unknown" = "OK" ∧
         (m.bgp_health.getD "NOT_CONFIGURED" = "NOT_CONFIGURED" ∨
          m.bgp_health.getD "NOT_CONFIGURED" = "OK") ∧
         (m.ospf_health.getD "NOT_CONFIGURED" = "NOT_CONFIGURED" ∨
          m.ospf_health.getD "NOT_CONFIGURED" ≠ "CRITICAL"))) ∧
    calculateOverallHealth
      ⟨some "Good", some "OK", some "OK", some "NOT_CONFIGURED", some "WARNING"⟩
      = "HEALTHY" ∧
    calculateOverallHealth
      ⟨some "Good", some "OK", some "OK", some "NOT_CONFIGURED", some "CRITICAL"⟩
      = "UNHEALTHY" := by
  refine ⟨?_, by decide, by decide⟩
  intro m
  unfold calculateOverallHealth
  dsimp only
  by_cases h1 : m.interface_health.getD "Unknown" = "Good" ∧
      m.cpu_health.getD "Unknown" = "OK" ∧ m.memory_health.getD "Unknown" = "OK"
  · rw [if_neg (not_not_intro h1)]
    by_cases h2 : m.bgp_health.getD "NOT_CONFIGURED" ≠ "NOT_CONFIGURED" ∧
        m.bgp_health.getD "NOT_CONFIGURED" ≠ "OK"
    · rw [if_pos h2]
      refine iff_of_false (by decide) ?_
      rintro ⟨-, -, -, hb, -⟩
      rcases hb with h | h
      · exact h2.1 h
      · exact h2.2 h
    · rw [if_neg h2]
      by_cases h3 : m.ospf_health.getD "NOT_CONFIGURED" ≠ "NOT_CONFIGURED" ∧
          m.ospf_health.getD "NOT_CONFIGURED" = "CRITICAL"
      · rw [if_pos h3]
        refine iff_of_false (by decide) ?_
        rintro ⟨-, -, -, -, ho⟩
        rcases ho with h | h
        · exact h3.1 h
        · exact h h3.2
      · rw [if_neg h3]
        refine iff_of_true rfl ⟨h1.1, h1.2.1, h1.2.2, ?_, ?_⟩
        · by_cases hb : m.bgp_health.getD "NOT_CONFIGURED" = "NOT_CONFIGURED"
          · exact Or.inl hb
          · right
            by_contra hb2
            exact h2 ⟨hb, hb2⟩
        · by_cases ho : m.ospf_health.getD "NOT_CONFIGURED" = "NOT_CONFIGURED"
          · exact Or.inl ho
          · right
            intro ho2
            exact h3 ⟨ho, ho2⟩
  · rw [if_pos h1]
    refine iff_of_false (by decide) ?_
    rintro ⟨a, b, c, -, -⟩
    exact h1 ⟨a, b, c⟩

/-! ## Thresholds (src/config/thresholds.py) -/

/-- `OSPF_DEAD_TIME_WARNING_SECONDS` (src/config/thresholds.py line 13). -/
def OSPF_DEAD_TIME_WARNING_SECONDS : ℤ := 10

/-- `OSPF_NEIGHBOR_DOWN_CRITICAL` (src/config/thresholds.py line 11). -/
def OSPF_NEIGHBOR_DOWN_CRITICAL : ℕ := 1

/-! ## OSPF analyzer (src/analyzers/ospf_analyzer.py) -/

/-- A Python dict value that is either a string or an integer (the OSPF
neighbor `priority` field defaults to the int 0 but is the string
`parts[1]` when produced by the manual parser). -/
inductive PyVal where
  | str (s : String)
  | int (n : ℤ)
deriving DecidableEq, Repr

/-- One OSPF neighbor record (a Python dict; absent keys are `none` and
`dict.get` defaults apply in the analyzer). -/
structure OspfNeighbor where
  neighbor_id : Option String := none
  state : Option String := none
  interface : Option String := none
  dead_time : Option String := none
  priority : Option PyVal := none
  address : Option String := none
  area : Option String := none
deriving DecidableEq, Repr

/-- One entry of the analyzer's `down_neighbors` list. -/
structure OspfDownNeighbor where
  neighbor_id : String
  state : String
  interface : String
  address : String
  area : String
  priority : PyVal
deriving DecidableEq, Repr

/-- One entry of the analyzer's `low_dead_time_neighbors` list. -/
structure OspfLowDead where
  neighbor_id : String
  interface : String
  dead_time : String
  dead_seconds : ℤ
deriving DecidableEq, Repr

/-- Per-area neighbor counters (`neighbors_by_area` values). -/
structure AreaCount where
  total : ℕ
  full : ℕ
  down : ℕ
deriving DecidableEq, Repr

/-- `OSPFAnalyzer._parse_dead_time`
(src/analyzers/ospf_analyzer.py lines 291-311): split on `:`; a
three-part `HH:MM:SS` string with integer parts yields total seconds,
anything else yields `None`. -/
def parseDeadTime (s : String) : Option ℤ :=
  match pySplitSep ':' s with
  | [h, m, sec] =>
      match pyIntOfString h, pyIntOfString m, pyIntOfString sec with
      | some hv, some mv, some sv => some (hv * 3600 + mv * 60 + sv)
      | _, _, _ => none
  | _ => none

/-- The neighbor state consulted by the analyzer:
`neighbor.get('state', '').upper()`. -/
def ospfStateOf (n : OspfNeighbor) : String := pyUpper (n.state.getD "")

/-- `'FULL' in state` for a neighbor's uppercased state. -/
def ospfIsFull (n : OspfNeighbor) : Bool := pyContains "FULL" (ospfStateOf n)

/-- The parsed dead time of a neighbor, with the analyzer's default
`'00:00:00'` for a missing `dead_time` key. -/
def ospfDeadSeconds (n : OspfNeighbor) : Option ℤ :=
  parseDeadTime (n.dead_time.getD "00:00:00")

/-- The analyzer's low-dead-timer test:
`dead_seconds is not None and dead_seconds <= OSPF_DEAD_TIME_WARNING_SECONDS`. -/
def ospfIsLowDead (n : OspfNeighbor) : Bool :=
  match ospfDeadSeconds n with
  | some s => s ≤ OSPF_DEAD_TIME_WARNING_SECONDS
  | none => false

/-- The `down_neighbors` entry built for a non-FULL neighbor
(src/analyzers/ospf_analyzer.py lines 74-81). -/
def ospfDownRec (n : OspfNeighbor) : OspfDownNeighbor :=
  { neighbor_id := n.neighbor_id.getD "Unknown"
    state := ospfStateOf n
    interface := n.interface.getD "Unknown"
    address := n.address.getD "Unknown"
    area := n.area.getD "0.0.0.0"
    priority := n.priority.getD (.int 0) }

/-- The `low_dead_time_neighbors` entry built for a low-dead-timer
neighbor (src/analyzers/ospf_analyzer.py lines 87-92); `dead_seconds` is
only read when the parse succeeded. -/
def ospfLowRec (n : OspfNeighbor) : OspfLowDead :=
  { neighbor_id := n.neighbor_id.getD "Unknown"
    interface := n.interface.getD "Unknown"
    dead_time := n.dead_time.getD "00:00:00"
    dead_seconds := (ospfDeadSeconds n).getD 0 }

/-- Insert-or-update in an insertion-ordered association list (model of
the Python dict `neighbors_by_area`). -/
def updateAssoc (a : String) (f : AreaCount → AreaCount) :
    List (String × AreaCount) → List (String × AreaCount)
  | [] => [(a, f ⟨0, 0, 0⟩)]
  | (k, v) :: rest =>
      if k = a then (k, f v) :: rest else (k, v) :: updateAssoc a f rest

/-- The loop's per-area bookkeeping: total always increments, then full
or down depending on the state test. -/
def ospfAreasOf (l : List OspfNeighbor) : List (String × AreaCount) :=
  l.foldl
    (fun acc n =>
      updateAssoc (n.area.getD "0.0.0.0")
        (fun c =>
          if ospfIsFull n then
            { c with total := c.total + 1, full := c.full + 1 }
          else
            { c with total := c.total + 1, down := c.down + 1 })
        acc)
    []

/-- The `down_neighbors` accumulated by the loop, in list order. -/
def ospfDownList (l : List OspfNeighbor) : List OspfDownNeighbor :=
  (l.filter (fun n => !ospfIsFull n)).map ospfDownRec

/-- The `low_dead_time_neighbors` accumulated by the loop, in list order. -/
def ospfLowList (l : List OspfNeighbor) : List OspfLowDead :=
  (l.filter ospfIsLowDead).map ospfLowRec

/-- `OSPFAnalyzer._parse_ospf_neighbors_manual`
(src/analyzers/ospf_analyzer.py lines 243-269): one record per stripped
line starting with an IPv4 literal and splitting into at least six
fields; `priority` is the string `parts[1]` and `area` defaults to
`0.0.0.0`. -/
def ospfParseNeighborsManual (raw : String) : List OspfNeighbor :=
  (pySplitlines raw).foldr
    (fun line acc =>
      let ls := pyStrip line
      if ipv4StartL ls.data then
        match pySplit ls with
        | p0 :: p1 :: p2 :: p3 :: p4 :: p5 :: _ =>
            { neighbor_id := some p0
              priority := some (.str p1)
              state := some p2
              dead_time := some p3
              address := some p4
              interface := some p5
              area := some "0.0.0.0" } :: acc
        | _ => acc
      else acc)
    []

/-- The analyzer's result record.  The Python `details` sub-dict (raw
neighbors echo plus the `OSPF_NEIGHBOR_DOWN_CRITICAL` threshold) is a
heterogeneous debug payload and carries no analysis output; it is not
modelled. -/
structure OspfNeighborVerdict where
  status : String
  total_neighbors : ℕ
  full_neighbors : ℕ
  down_neighbors : List OspfDownNeighbor
  neighbors_by_area : List (String × AreaCount)
  low_dead_time_neighbors : List OspfLowDead
deriving DecidableEq, Repr

/-- `OSPFAnalyzer.analyze_neighbors`
(src/analyzers/ospf_analyzer.py lines 13-113): structured data is used
when it is a non-empty list, otherwise the manual parser runs on the raw
text; zero neighbors yields NOT_CONFIGURED, any non-FULL neighbor yields
CRITICAL, otherwise a low dead timer yields WARNING, otherwise OK. -/
def ospfAnalyzeNeighbors (structured : Option (List OspfNeighbor)) (raw : String) :
    OspfNeighborVerdict :=
  let neighbors :=
    match structured with
    | some l => if 0 < l.length then l else ospfParseNeighborsManual raw
    | none => ospfParseNeighborsManual raw
  if neighbors.isEmpty then
    { status := "NOT_CONFIGURED"
      total_neighbors := 0
      full_neighbors := 0
      down_neighbors := []
      neighbors_by_area := []
      low_dead_time_neighbors := [] }
  else
    let down := ospfDownList neighbors
    let low := ospfLowList neighbors
    { status :=
        if ¬down.isEmpty then "CRITICAL"
        else if ¬low.isEmpty then "WARNING"
        else "OK"
      total_neighbors := neighbors.length
      full_neighbors := neighbors.countP (fun n => ospfIsFull n)
      down_neighbors := down
      neighbors_by_area := ospfAreasOf neighbors
      low_dead_time_neighbors := low }

/-- The non-empty-structured-input case of the analyzer, in closed form. -/
theorem ospfAnalyze_some_pos (l : List OspfNeighbor) (raw : String)
    (h : 0 < l.length) :
    ospfAnalyzeNeighbors (some l) raw =
      { status :=
          if ¬(ospfDownList l).isEmpty then "CRITICAL"
          else if ¬(ospfLowList l).isEmpty then "WARNING"
          else "OK"
        total_neighbors := l.length
        full_neighbors := l.countP (fun n => ospfIsFull n)
        down_neighbors := ospfDownList l
        neighbors_by_area := ospfAreasOf l
        low_dead_time_neighbors := ospfLowList l } := by
  have hne : ¬(l.isEmpty = true) := by
    intro hh
    rw [List.isEmpty_iff] at hh
    rw [hh] at h
    exact absurd h (by decide)
  unfold ospfAnalyzeNeighbors
  dsimp only
  rw [if_pos h, if_neg hne]

/-- `down_neighbors` is empty iff every neighbor's state contains FULL. -/
theorem ospfDownList_eq_nil (l : List OspfNeighbor) :
    ospfDownList l = [] ↔ ∀ n ∈ l, ospfIsFull n := by
  unfold ospfDownList
  rw [List.map_eq_nil_iff, List.filter_eq_nil_iff]
  constructor
  · intro h n hn
    have := h n hn
    simpa using this
  · intro h n hn
    simp [h n hn]

/-- `low_dead_time_neighbors` is empty iff no neighbor has a low dead
timer. -/
theorem ospfLowList_eq_nil (l : List OspfNeighbor) :
    ospfLowList l = [] ↔ ∀ n ∈ l, ¬ ospfIsLowDead n := by
  unfold ospfLowList
  rw [List.map_eq_nil_iff, List.filter_eq_nil_iff]

/-- Nonemptiness of `down_neighbors`, as an existential. -/
theorem ospfDownList_ne_nil (l : List OspfNeighbor) :
    ospfDownList l ≠ [] ↔ ∃ n ∈ l, ¬ ospfIsFull n := by
  rw [ne_eq, ospfDownList_eq_nil]
  push_neg
  rfl

/-- Nonemptiness of `low_dead_time_neighbors`, as an existential. -/
theorem ospfLowList_ne_nil (l : List OspfNeighbor) :
    ospfLowList l ≠ [] ↔ ∃ n ∈ l, ospfIsLowDead n := by
  rw [ne_eq, ospfLowList_eq_nil]
  push_neg
  rfl

/-- **C2.** For every non-empty structured list of OSPF neighbor records,
`OSPFAnalyzer.analyze_neighbors` returns CRITICAL iff some neighbor's
state does not contain FULL, otherwise WARNING iff some neighbor's dead
timer parses to at most 10 seconds, otherwise OK; with zero neighbor rows
it returns NOT_CONFIGURED.  Concretely, two FULL neighbors with dead
times 300s and 5s yield WARNING, and neighbors FULL/DR and 2WAY yield
CRITICAL with full_neighbors = 1, total_neighbors = 2 and the 2WAY entry
in down_neighbors with its area. -/
theorem ospf_neighbor_status :
    (∀ (l : List OspfNeighbor) (raw : String), l ≠ [] →
      (((ospfAnalyzeNeighbors (some l) raw).status = "CRITICAL" ↔
          ∃ n ∈ l, ¬ ospfIsFull n) ∧
       ((ospfAnalyzeNeighbors (some l) raw).status = "WARNING" ↔
          (∀ n ∈ l, ospfIsFull n) ∧ ∃ n ∈ l, ospfIsLowDead n) ∧
       ((ospfAnalyzeNeighbors (some l) raw).status = "OK" ↔
          (∀ n ∈ l, ospfIsFull n) ∧ ∀ n ∈ l, ¬ ospfIsLowDead n))) ∧
    (∀ raw : String, ospfParseNeighborsManual raw = [] →
      (ospfAnalyzeNeighbors none raw).status = "NOT_CONFIGURED") ∧
    (ospfAnalyzeNeighbors
        (some [{ neighbor_id := some "10.1.12.2", state := some "FULL/DR",
                 dead_time := some "00:05:00" },
               { neighbor_id := some "10.1.13.3", state := some "FULL/BDR",
                 dead_time := some "00:00:05" }]) "").status = "WARNING" ∧
    (let v := ospfAnalyzeNeighbors
        (some [{ neighbor_id := some "10.1.12.2", state := some "FULL/DR",
                 dead_time := some "00:00:37", address := some "10.1.12.2",
                 interface := some "GigabitEthernet0/0", area := some "0.0.0.0" },
               { neighbor_id := some "10.1.14.4", state := some "2WAY",
                 dead_time := some "00:00:35", address := some "10.1.14.4",
                 interface := some "GigabitEthernet0/1", area := some "0.0.0.1" }]) ""
     v.status = "CRITICAL" ∧ v.full_neighbors = 1 ∧ v.total_neighbors = 2 ∧
       v.down_neighbors =
         [{ neighbor_id := "10.1.14.4", state := "2WAY",
            interface := "GigabitEthernet0/1", address := "10.1.14.4",
            area := "0.0.0.1", priority := .int 0 }]) := by
  refine ⟨?_, ?_, by decide, by decide⟩
  · intro l raw hl
    have h0 : 0 < l.length := List.length_pos.mpr hl
    rw [ospfAnalyze_some_pos l raw h0]
    dsimp only
    by_cases hd : (ospfDownList l).isEmpty = true
    · have hdNil : ospfDownList l = [] := List.isEmpty_iff.mp hd
      have hAllFull : ∀ n ∈ l, ospfIsFull n := (ospfDownList_eq_nil l).mp hdNil
      rw [if_neg (not_not_intro hd)]
      by_cases hw : (ospfLowList l).isEmpty = true
      · have hwNil : ospfLowList l = [] := List.isEmpty_iff.mp hw
        have hNoLow : ∀ n ∈ l, ¬ ospfIsLowDead n := (ospfLowList_eq_nil l).mp hwNil
        rw [if_neg (not_not_intro hw)]
        refine ⟨iff_of_false (by decide) ?_, iff_of_false (by decide) ?_,
          iff_of_true rfl ⟨hAllFull, hNoLow⟩⟩
        · rintro ⟨n, hn, hnf⟩
          exact hnf (hAllFull n hn)
        · rintro ⟨-, n, hn, hlow⟩
          exact hNoLow n hn hlow
      · have hwNe : ospfLowList l ≠ [] := fun hh => hw (List.isEmpty_iff.mpr hh)
        rw [if_pos hw]
        refine ⟨iff_of_false (by decide) ?_,
          iff_of_true rfl ⟨hAllFull, (ospfLowList_ne_nil l).mp hwNe⟩,
          iff_of_false (by decide) ?_⟩
        · rintro ⟨n, hn, hnf⟩
          exact hnf (hAllFull n hn)
        · rintro ⟨-, hNoLow⟩
          exact hwNe ((ospfLowList_eq_nil l).mpr hNoLow)
    · have hdNe : ospfDownList l ≠ [] := fun hh => hd (List.isEmpty_iff.mpr hh)
      rw [if_pos hd]
      refine ⟨iff_of_true rfl ((ospfDownList_ne_nil l).mp hdNe),
        iff_of_false (by decide) ?_, iff_of_false (by decide) ?_⟩
      · rintro ⟨hAllFull, -⟩
        exact hdNe ((ospfDownList_eq_nil l).mpr hAllFull)
      · rintro ⟨hAllFull, -⟩
        exact hdNe ((ospfDownList_eq_nil l).mpr hAllFull)
  · intro raw hp
    unfold ospfAnalyzeNeighbors
    dsimp only
    rw [hp]
    rfl

/-- Witness for C2: the quantified parts applied at a concrete input. -/
theorem ospf_neighbor_status_witness :
    ([({ state := some "2WAY" } : OspfNeighbor)] ≠ []) ∧
      ((ospfAnalyzeNeighbors (some [{ state := some "2WAY" }]) "").status = "CRITICAL" ↔
        ∃ n ∈ [({ state := some "2WAY" } : OspfNeighbor)], ¬ ospfIsFull n) :=
  ⟨by decide, (ospf_neighbor_status.1 [{ state := some "2WAY" }] "" (by decide)).1⟩

/-- **C10.** An OSPF neighbor record lacking a `dead_time` field gets the
default `00:00:00`, which parses to 0 seconds, at most the 10-second
warning threshold, so the neighbor lands in `low_dead_time_neighbors`;
hence if every neighbor's state contains FULL, one field-less record
forces status WARNING instead of OK. -/
theorem ospf_missing_dead_time (l : List OspfNeighbor) (raw : String)
    (n : OspfNeighbor) (hn : n ∈ l) (hdt : n.dead_time = none)
    (hAllFull : ∀ m ∈ l, ospfIsFull m) :
    (ospfAnalyzeNeighbors (some l) raw).status = "WARNING" ∧
      ospfLowRec n ∈ (ospfAnalyzeNeighbors (some l) raw).low_dead_time_neighbors := by
  have h0 : 0 < l.length := List.length_pos.mpr (List.ne_nil_of_mem hn)
  have hlow : ospfIsLowDead n = true := by
    unfold ospfIsLowDead ospfDeadSeconds
    rw [hdt]
    decide
  have hmem : ospfLowRec n ∈ ospfLowList l :=
    List.mem_map_of_mem ospfLowRec (List.mem_filter.mpr ⟨hn, hlow⟩)
  have hwNe : ospfLowList l ≠ [] := List.ne_nil_of_mem hmem
  have hdNil : ospfDownList l = [] := (ospfDownList_eq_nil l).mpr hAllFull
  rw [ospfAnalyze_some_pos l raw h0]
  dsimp only
  rw [if_neg (not_not_intro (List.isEmpty_iff.mpr hdNil)),
    if_pos (fun hh => hwNe (List.isEmpty_iff.mp hh))]
  exact ⟨rfl, hmem⟩

/-- Witness for C10: a single FULL neighbor with no `dead_time` key. -/
theorem ospf_missing_dead_time_witness :
    (ospfAnalyzeNeighbors
        (some [{ neighbor_id := some "10.1.12.2", state := some "FULL/DR" }]) "").status
        = "WARNING" ∧
      ospfLowRec { neighbor_id := some "10.1.12.2", state := some "FULL/DR" } ∈
        (ospfAnalyzeNeighbors
          (some [{ neighbor_id := some "10.1.12.2", state := some "FULL/DR" }]) ""
          ).low_dead_time_neighbors :=
  ospf_missing_dead_time
    [{ neighbor_id := some "10.1.12.2", state := some "FULL/DR" }] ""
    { neighbor_id := some "10.1.12.2", state := some "FULL/DR" }
    (by decide) rfl (by decide)

/-! ## BGP summary parser (src/utils/parsers.py) and analyzer
(src/analyzers/bgp_analyzer.py) -/

/-- One BGP-summary neighbor record as built by the fallback parser
(src/utils/parsers.py lines 19-38); `as` is the Python dict key for the
autonomous-system column. -/
structure BgpSummaryNeighbor where
  neighbor : String
  version : String
  as : String
  msg_rcvd : String
  msg_sent : String
  tbl_ver : String
  inq : String
  outq : String
  uptime : String
  state_pfxrcd : String
  state : String
  prefixes_received : ℤ
deriving DecidableEq, Repr

/-- One entry of the analyzer's `down_neighbors` list
(src/analyzers/bgp_analyzer.py lines 55-59). -/
structure BgpDownNeighbor where
  neighbor : String
  as : String
  state : String
deriving DecidableEq, Repr

/-- One line of `BGPParser.parse_bgp_summary`
(src/utils/parsers.py lines 14-40): a stripped line starting with an IPv4
literal and splitting into at least ten fields yields a record; column 10
(`parts[9]`) becomes `state_pfxrcd`, and a successful `int()` on it sets
`state` to Established with the value as `prefixes_received`, otherwise
`state` is the column text and `prefixes_received` is 0. -/
def bgpParseLine (line : String) : Option BgpSummaryNeighbor :=
  let ls := pyStrip line
  if pyIpv4Start ls then
    match pySplit ls with
    | p0 :: p1 :: p2 :: p3 :: p4 :: p5 :: p6 :: p7 :: p8 :: p9 :: _ =>
        some
          (match pyIntOfString p9 with
           | some v =>
               { neighbor := p0, version := p1, as := p2, msg_rcvd := p3
                 msg_sent := p4, tbl_ver := p5, inq := p6, outq := p7
                 uptime := p8, state_pfxrcd := p9
                 state := "Established", prefixes_received := v }
           | none =>
               { neighbor := p0, version := p1, as := p2, msg_rcvd := p3
                 msg_sent := p4, tbl_ver := p5, inq := p6, outq := p7
                 uptime := p8, state_pfxrcd := p9
                 state := p9, prefixes_received := 0 })
    | _ => none
  else none

/-- `BGPParser.parse_bgp_summary` (src/utils/parsers.py lines 8-42): one
record per matching line, non-matching lines skipped. -/
def parseBgpSummary (raw : String) : List BgpSummaryNeighbor :=
  (pySplitlines raw).filterMap bgpParseLine

/-- The analyzer's established test
(src/analyzers/bgp_analyzer.py line 52): `state == 'Established' or
str(state).isdigit()`; the parser always sets the `state` key, so the
`.get` fallback chain collapses to the `state` field. -/
def bgpIsEstablished (nb : BgpSummaryNeighbor) : Bool :=
  (nb.state == "Established") || pyIsdigitStr nb.state

/-- The `down_neighbors` entries accumulated by the analyzer loop. -/
def bgpDownList (l : List BgpSummaryNeighbor) : List BgpDownNeighbor :=
  (l.filter (fun nb => !bgpIsEstablished nb)).map
    (fun nb => { neighbor := nb.neighbor, as := nb.as, state := nb.state })

/-- The analyzer's result record (the `details` echo of the parsed rows is
not modelled). -/
structure BgpSummaryVerdict where
  status : String
  total_neighbors : ℕ
  established_neighbors : ℕ
  down_neighbors : List BgpDownNeighbor
deriving DecidableEq, Repr

/-- `BGPAnalyzer.analyze_summary`
(src/analyzers/bgp_analyzer.py lines 10-71): structured data is used when
it is a non-empty list, otherwise the fallback parser runs on the raw
text (the fallback is total, so the Python `except` re-run cannot fire);
zero rows yields NOT_CONFIGURED, otherwise OK iff every neighbor is
established, else CRITICAL. -/
def bgpAnalyzeSummary (structured : Option (List BgpSummaryNeighbor))
    (raw : String) : BgpSummaryVerdict :=
  let neighbors :=
    match structured with
    | some l => if 0 < l.length then l else parseBgpSummary raw
    | none => parseBgpSummary raw
  if neighbors.isEmpty then
    { status := "NOT_CONFIGURED"
      total_neighbors := 0
      established_neighbors := 0
      down_neighbors := [] }
  else
    { status :=
        if neighbors.countP (fun nb => bgpIsEstablished nb) = neighbors.length
        then "OK" else "CRITICAL"
      total_neighbors := neighbors.length
      established_neighbors := neighbors.countP (fun nb => bgpIsEstablished nb)
      down_neighbors := bgpDownList neighbors }

/-- Stripping leading whitespace is the identity on whitespace-free text. -/
theorem stripLeadL_no_space (l : List Char) (h : ∀ c ∈ l, pyIsSpace c = false) :
    stripLeadL l = l := by
  cases l with
  | nil => rfl
  | cons c rest =>
      unfold stripLeadL
      rw [h c (List.mem_cons_self c rest)]
      simp

/-- Stripping is the identity on whitespace-free text. -/
theorem stripL_no_space (l : List Char) (h : ∀ c ∈ l, pyIsSpace c = false) :
    stripL l = l := by
  unfold stripL
  rw [stripLeadL_no_space l.reverse (fun c hc => h c (List.mem_reverse.mp hc)),
    List.reverse_reverse, stripLeadL_no_space l h]

/-- A digit is not whitespace. -/
theorem pyIsDigit_not_space (c : Char) (h : pyIsDigit c = true) :
    pyIsSpace c = false := by
  unfold pyIsDigit at h
  unfold pyIsSpace
  obtain ⟨h1, h2⟩ := Bool.and_eq_true_iff.mp h
  simp only [Bool.or_eq_false_iff, decide_eq_false_iff_not]
  refine ⟨⟨⟨⟨⟨?_, ?_⟩, ?_⟩, ?_⟩, ?_⟩, ?_⟩ <;>
    (intro hc; subst hc; revert h1 h2; decide)

/-- An all-digit run is accepted by the digit accumulator. -/
theorem intDigitsAux_all_digits (l : List Char) :
    ∀ acc : ℕ, l.all pyIsDigit = true → (intDigitsAux l acc).isSome = true := by
  induction l with
  | nil => intro acc _; rfl
  | cons c rest ih =>
      intro acc hall
      rw [List.all_cons, Bool.and_eq_true_iff] at hall
      unfold intDigitsAux
      rw [hall.1]
      exact ih _ hall.2

/-- `str.isdigit` text is accepted by the `int()` model. -/
theorem isdigit_int_parsable (s : String) (h : pyIsdigitStr s = true) :
    (pyIntOfString s).isSome = true := by
  unfold pyIsdigitStr at h
  rw [Bool.and_eq_true_iff] at h
  obtain ⟨hne, hall⟩ := h
  have hnosp : ∀ c ∈ s.data, pyIsSpace c = false := fun c hc =>
    pyIsDigit_not_space c (List.all_eq_true.mp hall c hc)
  unfold pyIntOfString
  rw [stripL_no_space s.data hnosp]
  cases hd : s.data with
  | nil => rw [hd] at hne; simp at hne
  | cons c rest =>
      rw [hd] at hall
      rw [List.all_cons, Bool.and_eq_true_iff] at hall
      have hcd : pyIsDigit c = true := hall.1
      have hcm : c ≠ '-' := by
        intro hh; rw [hh] at hcd; exact absurd hcd (by decide)
      have hcp : c ≠ '+' := by
        intro hh; rw [hh] at hcd; exact absurd hcd (by decide)
      dsimp only
      rw [if_neg hcm, if_neg hcp]
      unfold intDigits
      dsimp only
      rw [hcd]
      simp only [if_true]
      have hS := intDigitsAux_all_digits rest (c.toNat - 48) hall.2
      cases hx : intDigitsAux rest (c.toNat - 48) with
      | none => rw [hx] at hS; exact absurd hS (by decide)
      | some v => rfl

/-- Every parsed BGP-summary record either has a numeric column 10 (and
then state Established) or a non-numeric column 10 echoed as its state. -/
theorem bgpParseLine_state (line : String) (nb : BgpSummaryNeighbor)
    (h : bgpParseLine line = some nb) :
    ((pyIntOfString nb.state_pfxrcd).isSome = true ∧ nb.state = "Established") ∨
      (pyIntOfString nb.state_pfxrcd = none ∧ nb.state = nb.state_pfxrcd) := by
  unfold bgpParseLine at h
  dsimp only at h
  split at h
  · split at h
    · rename_i p0 p1 p2 p3 p4 p5 p6 p7 p8 p9 tail heq
      rw [Option.some_inj] at h
      subst h
      cases hp : pyIntOfString p9 with
      | none =>
          dsimp only
          right
          exact ⟨hp, rfl⟩
      | some v =>
          dsimp only
          left
          exact ⟨by rw [hp]; rfl, rfl⟩
    · exact absurd h (by simp)
  · exact absurd h (by simp)

/-- The raw-text path of the BGP summary analyzer with at least one
parsed row, in closed form. -/
theorem bgpAnalyze_raw_pos (raw : String) (h : parseBgpSummary raw ≠ []) :
    bgpAnalyzeSummary none raw =
      { status :=
          if (parseBgpSummary raw).countP (fun nb => bgpIsEstablished nb)
              = (parseBgpSummary raw).length
          then "OK" else "CRITICAL"
        total_neighbors := (parseBgpSummary raw).length
        established_neighbors :=
          (parseBgpSummary raw).countP (fun nb => bgpIsEstablished nb)
        down_neighbors := bgpDownList (parseBgpSummary raw) } := by
  unfold bgpAnalyzeSummary
  dsimp only
  rw [if_neg (fun hh => h (List.isEmpty_iff.mp hh))]

/-- **C3.** For every BGP-summary raw text, `BGPAnalyzer.analyze_summary`
returns NOT_CONFIGURED when zero neighbor rows are found; a parsed
neighbor counts as established iff its column-10 value is numeric or
equals Established; status is CRITICAL iff established-count is less than
total-count; and the concrete two-row text (one numeric column 10, one
Idle) yields established=1, total=2, CRITICAL, with the Idle entry in
down_neighbors. -/
theorem bgp_summary_analysis :
    (∀ raw : String, parseBgpSummary raw = [] →
      bgpAnalyzeSummary none raw =
        { status := "NOT_CONFIGURED", total_neighbors := 0,
          established_neighbors := 0, down_neighbors := [] }) ∧
    (∀ (raw : String) (nb : BgpSummaryNeighbor), nb ∈ parseBgpSummary raw →
      (bgpIsEstablished nb = true ↔
        (pyIntOfString nb.state_pfxrcd).isSome = true ∨
          nb.state_pfxrcd = "Established")) ∧
    (∀ raw : String, parseBgpSummary raw ≠ [] →
      ((bgpAnalyzeSummary none raw).status = "CRITICAL" ↔
        (bgpAnalyzeSummary none raw).established_neighbors <
          (bgpAnalyzeSummary none raw).total_neighbors)) ∧
    (let v := bgpAnalyzeSummary none
        ("BGP router identifier 10.0.0.1, local AS number 65000\nNeighbor        V    AS MsgRcvd MsgSent   TblVer  InQ OutQ Up/Down  State/PfxRcd\n10.0.0.2        4 65001     100     100       10    0    0 1d02h           5\n10.0.0.3        4 65002     100     100       10    0    0 never        Idle")
     v.established_neighbors = 1 ∧ v.total_neighbors = 2 ∧
       v.status = "CRITICAL" ∧
       v.down_neighbors =
         [{ neighbor := "10.0.0.3", as := "65002", state := "Idle" }]) := by
  refine ⟨?_, ?_, ?_, by decide⟩
  · intro raw hp
    unfold bgpAnalyzeSummary
    dsimp only
    rw [hp]
    rfl
  · intro raw nb hmem
    obtain ⟨line, hline, hsome⟩ := List.mem_filterMap.mp hmem
    rcases bgpParseLine_state line nb hsome with ⟨hS, hst⟩ | ⟨hN, hst⟩
    · constructor
      · intro _
        exact Or.inl hS
      · intro _
        unfold bgpIsEstablished
        rw [hst]
        decide
    · unfold bgpIsEstablished
      rw [hst]
      constructor
      · intro hE
        simp only [Bool.or_eq_true] at hE
        rcases hE with hbeq | hdig
        · exact Or.inr (eq_of_beq hbeq)
        · have hs := isdigit_int_parsable _ hdig
          rw [hN] at hs
          exact absurd hs (by decide)
      · intro hr
        rcases hr with hs | hEq
        · rw [hN] at hs
          exact absurd hs (by decide)
        · rw [hEq]
          decide
  · intro raw hne
    rw [bgpAnalyze_raw_pos raw hne]
    dsimp only
    by_cases he : (parseBgpSummary raw).countP (fun nb => bgpIsEstablished nb)
        = (parseBgpSummary raw).length
    · rw [if_pos he]
      refine iff_of_false (by decide) ?_
      rw [he]
      exact lt_irrefl _
    · rw [if_neg he]
      exact iff_of_true rfl (lt_of_le_of_ne (List.countP_le_length _) he)

/-- Witness for C3: the quantified CRITICAL-iff part applied at a
concrete one-row raw text. -/
theorem bgp_summary_analysis_witness :
    parseBgpSummary "10.0.0.3 4 65002 100 100 10 0 0 never Idle" ≠ [] ∧
      ((bgpAnalyzeSummary none
          "10.0.0.3 4 65002 100 100 10 0 0 never Idle").status = "CRITICAL" ↔
        (bgpAnalyzeSummary none
          "10.0.0.3 4 65002 100 100 10 0 0 never Idle").established_neighbors <
          (bgpAnalyzeSummary none
            "10.0.0.3 4 65002 100 100 10 0 0 never Idle").total_neighbors) :=
  ⟨by decide, bgp_summary_analysis.2.2.1
    "10.0.0.3 4 65002 100 100 10 0 0 never Idle" (by decide)⟩

/-- **C6.** The BGP-summary fallback parser is total: a raw text with no
IPv4-literal-prefixed stripped line parses to the empty list, and every
parsed record comes from a line that starts with an IPv4 literal and has
at least ten whitespace-separated fields (every other line is skipped). -/
theorem bgp_fallback_total :
    (∀ raw : String,
      (∀ line ∈ pySplitlines raw, pyIpv4Start (pyStrip line) = false) →
      parseBgpSummary raw = []) ∧
    (∀ (raw : String) (nb : BgpSummaryNeighbor), nb ∈ parseBgpSummary raw →
      ∃ line ∈ pySplitlines raw, pyIpv4Start (pyStrip line) = true ∧
        10 ≤ (pySplit (pyStrip line)).length) := by
  constructor
  · intro raw h
    unfold parseBgpSummary
    rw [List.filterMap_eq_nil_iff]
    intro line hl
    unfold bgpParseLine
    dsimp only
    rw [h line hl]
    simp
  · intro raw nb hmem
    obtain ⟨line, hl, hsome⟩ := List.mem_filterMap.mp hmem
    refine ⟨line, hl, ?_⟩
    unfold bgpParseLine at hsome
    dsimp only at hsome
    by_cases hp : pyIpv4Start (pyStrip line) = true
    · refine ⟨hp, ?_⟩
      rw [if_pos hp] at hsome
      split at hsome
      · rename_i p0 p1 p2 p3 p4 p5 p6 p7 p8 p9 tail heq
        rw [heq]
        simp only [List.length_cons]
        omega
      · exact absurd hsome (by simp)
    · rw [if_neg hp] at hsome
      exact absurd hsome (by simp)

/-- Witness for C6: a banner-and-header text with no IPv4-prefixed line
parses to the empty list. -/
theorem bgp_fallback_total_witness :
    (∀ line ∈ pySplitlines
        "BGP router identifier 10.0.0.1, local AS number 65000\nNeighbor        V    AS MsgRcvd MsgSent\n% BGP not active",
      pyIpv4Start (pyStrip line) = false) ∧
      parseBgpSummary
        "BGP router identifier 10.0.0.1, local AS number 65000\nNeighbor        V    AS MsgRcvd MsgSent\n% BGP not active" = [] :=
  ⟨by decide, bgp_fallback_total.1
    "BGP router identifier 10.0.0.1, local AS number 65000\nNeighbor        V    AS MsgRcvd MsgSent\n% BGP not active" (by decide)⟩

/-! ## Interface analyzer (src/analyzers/interface_analyzer.py) -/

/-- One structured interface row (a Python dict; `.get` returning `None`
and a missing key behave alike through the `or` defaults). -/
structure IntfRecord where
  interface : Option String := none
  ipaddr : Option String := none
  status : Option String := none
  protocol : Option String := none
deriving DecidableEq, Repr

/-- One entry of `interfaces_down`. -/
structure IntfDown where
  interface : String
  status : String
  protocol : String
deriving DecidableEq, Repr

/-- `(intf.get("ipaddr") or "unassigned").lower()`: a missing key or a
falsy (empty) value becomes the sentinel. -/
def intfIpaddr (i : IntfRecord) : String :=
  pyLower
    (match i.ipaddr with
     | some s => if s = "" then "unassigned" else s
     | none => "unassigned")

/-- `(intf.get("status") or "").lower()`. -/
def intfStatus (i : IntfRecord) : String := pyLower (i.status.getD "")

/-- `(intf.get("protocol") or "").lower()`. -/
def intfProtocol (i : IntfRecord) : String := pyLower (i.protocol.getD "")

/-- The loop's test for appending to `down_interfaces`
(src/analyzers/interface_analyzer.py lines 29-35): IP assigned, and link
status or protocol not up. -/
def intfBad (i : IntfRecord) : Bool :=
  !(intfIpaddr i == "unassigned") &&
    (!(intfStatus i == "up") || !(intfProtocol i == "up"))

/-- The record appended to `down_interfaces`. -/
def intfDownRec (i : IntfRecord) : IntfDown :=
  { interface := i.interface.getD "unknown"
    status := intfStatus i
    protocol := intfProtocol i }

/-- The `down_interfaces` accumulated by the loop, in list order. -/
def interfacesDown (l : List IntfRecord) : List IntfDown :=
  (l.filter intfBad).map intfDownRec

/-- The analyzer's result record (`details.total_checked` is
`len(structured_data) if structured_data else 0`). -/
structure IntfVerdict where
  status : String
  interfaces_down : List IntfDown
  total_checked : ℕ
deriving DecidableEq, Repr

/-- `InterfaceAnalyzer.analyze`
(src/analyzers/interface_analyzer.py lines 7-43): the loop only runs when
the structured input is a list; the raw text is never consulted, and
status is Warning exactly when `down_interfaces` is non-empty. -/
def interfaceAnalyze (structured : Option (List IntfRecord)) (_raw : String) :
    IntfVerdict :=
  let down :=
    match structured with
    | some l => interfacesDown l
    | none => []
  { status := if ¬down.isEmpty then "Warning" else "Good"
    interfaces_down := down
    total_checked :=
      match structured with
      | some l => l.length
      | none => 0 }

/-- The Bool test of the loop, as a proposition. -/
theorem intfBad_iff (i : IntfRecord) :
    intfBad i = true ↔
      intfIpaddr i ≠ "unassigned" ∧
        (intfStatus i ≠ "up" ∨ intfProtocol i ≠ "up") := by
  unfold intfBad
  simp [Bool.and_eq_true, Bool.or_eq_true]

/-- Unassigned rows contribute nothing to `down_interfaces`: filtering
them away first changes nothing. -/
theorem interfacesDown_filter_assigned (l : List IntfRecord) :
    interfacesDown (l.filter (fun i => !(intfIpaddr i == "unassigned")))
      = interfacesDown l := by
  unfold interfacesDown
  congr 1
  induction l with
  | nil => rfl
  | cons i rest ih =>
      by_cases ha : (intfIpaddr i == "unassigned") = true
      · have hb : intfBad i = false := by
          unfold intfBad
          rw [ha]
          rfl
        simp [List.filter_cons, ha, hb, ih]
      · have ha2 : (intfIpaddr i == "unassigned") = false :=
          Bool.eq_false_iff.mpr ha
        simp [List.filter_cons, ha2, ih]

/-- `interfaces_down` is empty iff no row passes the loop's test. -/
theorem interfacesDown_eq_nil (l : List IntfRecord) :
    interfacesDown l = [] ↔ ∀ i ∈ l, intfBad i = false := by
  unfold interfacesDown
  rw [List.map_eq_nil_iff, List.filter_eq_nil_iff]
  constructor
  · intro h i hi
    have := h i hi
    cases hb : intfBad i
    · rfl
    · exact absurd hb this
  · intro h i hi
    rw [h i hi]
    decide

/-- Nonemptiness of `interfaces_down`, as an existential. -/
theorem interfacesDown_ne_nil (l : List IntfRecord) :
    interfacesDown l ≠ [] ↔ ∃ i ∈ l, intfBad i = true := by
  rw [ne_eq, interfacesDown_eq_nil]
  push_neg
  constructor
  · rintro ⟨i, hi, hne⟩
    refine ⟨i, hi, ?_⟩
    cases hb : intfBad i
    · exact absurd hb hne
    · rfl
  · rintro ⟨i, hi, hb⟩
    exact ⟨i, hi, by rw [hb]; decide⟩

/-- **C7.** For every structured interface list,
`InterfaceAnalyzer.analyze` returns Warning iff some interface with an
assigned IP has link or protocol status different from up (and every such
interface appears in `interfaces_down`); rows whose IP field is the
unassigned sentinel are ignored entirely, and otherwise the status is
Good. -/
theorem interface_analyzer_rules :
    ∀ (l : List IntfRecord) (raw : String),
      (((interfaceAnalyze (some l) raw).status = "Warning") ↔
        ∃ i ∈ l, intfIpaddr i ≠ "unassigned" ∧
          (intfStatus i ≠ "up" ∨ intfProtocol i ≠ "up")) ∧
      (((interfaceAnalyze (some l) raw).status = "Good") ↔
        ∀ i ∈ l, intfIpaddr i ≠ "unassigned" →
          intfStatus i = "up" ∧ intfProtocol i = "up") ∧
      (∀ i, i ∈ l → intfIpaddr i ≠ "unassigned" →
        (intfStatus i ≠ "up" ∨ intfProtocol i ≠ "up") →
        intfDownRec i ∈ (interfaceAnalyze (some l) raw).interfaces_down) ∧
      ((interfaceAnalyze
          (some (l.filter (fun i => !(intfIpaddr i == "unassigned")))) raw).status
        = (interfaceAnalyze (some l) raw).status ∧
       (interfaceAnalyze
          (some (l.filter (fun i => !(intfIpaddr i == "unassigned")))) raw).interfaces_down
        = (interfaceAnalyze (some l) raw).interfaces_down) := by
  intro l raw
  refine ⟨?_, ?_, ?_, ?_, ?_⟩
  · dsimp only [interfaceAnalyze]
    by_cases hd : (interfacesDown l).isEmpty = true
    · rw [if_neg (not_not_intro hd)]
      refine iff_of_false (by decide) ?_
      rintro ⟨i, hi, h1, h2⟩
      have hb := (intfBad_iff i).mpr ⟨h1, h2⟩
      have hf := (interfacesDown_eq_nil l).mp (List.isEmpty_iff.mp hd) i hi
      rw [hb] at hf
      exact absurd hf (by decide)
    · rw [if_pos hd]
      have hne : interfacesDown l ≠ [] := fun hh => hd (List.isEmpty_iff.mpr hh)
      obtain ⟨i, hi, hb⟩ := (interfacesDown_ne_nil l).mp hne
      exact iff_of_true rfl ⟨i, hi, (intfBad_iff i).mp hb⟩
  · dsimp only [interfaceAnalyze]
    by_cases hd : (interfacesDown l).isEmpty = true
    · rw [if_neg (not_not_intro hd)]
      have hall := (interfacesDown_eq_nil l).mp (List.isEmpty_iff.mp hd)
      refine iff_of_true rfl ?_
      intro i hi hass
      constructor
      · by_contra hs
        have hb := (intfBad_iff i).mpr ⟨hass, Or.inl hs⟩
        have hf := hall i hi
        rw [hb] at hf
        exact absurd hf (by decide)
      · by_contra hs
        have hb := (intfBad_iff i).mpr ⟨hass, Or.inr hs⟩
        have hf := hall i hi
        rw [hb] at hf
        exact absurd hf (by decide)
    · rw [if_pos hd]
      have hne : interfacesDown l ≠ [] := fun hh => hd (List.isEmpty_iff.mpr hh)
      obtain ⟨i, hi, hb⟩ := (interfacesDown_ne_nil l).mp hne
      obtain ⟨hass, hor⟩ := (intfBad_iff i).mp hb
      refine iff_of_false (by decide) ?_
      intro hall
      have hup := hall i hi hass
      rcases hor with h | h
      · exact h hup.1
      · exact h hup.2
  · intro i hi h1 h2
    dsimp only [interfaceAnalyze]
    exact List.mem_map_of_mem intfDownRec
      (List.mem_filter.mpr ⟨hi, (intfBad_iff i).mpr ⟨h1, h2⟩⟩)
  · dsimp only [interfaceAnalyze]
    rw [interfacesDown_filter_assigned l]
  · dsimp only [interfaceAnalyze]
    exact interfacesDown_filter_assigned l

/-- Witness for C7: a down interface with an assigned IP lands in
`interfaces_down`. -/
theorem interface_analyzer_rules_witness :
    intfDownRec
      { interface := some "GigabitEthernet0/1", ipaddr := some "10.0.0.1",
        status := some "down", protocol := some "down" } ∈
      (interfaceAnalyze
        (some [{ interface := some "GigabitEthernet0/1", ipaddr := some "10.0.0.1",
                 status := some "down", protocol := some "down" }]) "").interfaces_down :=
  (interface_analyzer_rules
    [{ interface := some "GigabitEthernet0/1", ipaddr := some "10.0.0.1",
       status := some "down", protocol := some "down" }] "").2.2.1
    { interface := some "GigabitEthernet0/1", ipaddr := some "10.0.0.1",
      status := some "down", protocol := some "down" }
    (by decide) (by decide) (by decide)

/-- **C9.** For every raw text and a structured input that is not a list
(modelled `none`, as produced by a structured-parse failure or a command
timeout), `InterfaceAnalyzer.analyze` returns Good with an empty
`interfaces_down` and zero interfaces checked: the analyzer never
consults the raw text and has no fallback parser. -/
theorem interface_analyzer_none_good :
    ∀ raw : String,
      interfaceAnalyze none raw =
        { status := "Good", interfaces_down := [], total_checked := 0 } :=
  fun _ => rfl

/-! ## Session driver output post-processing (src/collectors/cisco_ios.py) -/

/-- The prompt-line removal step: when the line list is non-empty and its
last line's stripped form contains `#` or `>`, drop that last line
(src/collectors/cisco_ios.py lines 101-105). -/
def stripPromptTail (lines : List String) : List String :=
  if 0 < lines.length then
    if pyContains "#" (pyStrip (lines.getLastD ""))
        || pyContains ">" (pyStrip (lines.getLastD "")) then
      lines.dropLast
    else lines
  else lines

/-- The buffer clean-up at the end of
`CiscoIOSCollector._robust_read_until_prompt`
(src/collectors/cisco_ios.py lines 94-108): split the accumulated buffer
into lines, drop the first line (the echoed command), drop the last line
when it is prompt text, and join the remainder with newlines. -/
def robustClean (output : String) : String :=
  let lines := pySplitlines output
  let lines1 := if 0 < lines.length then lines.tail else lines
  joinNL (stripPromptTail lines1)

/-- Prompt-tail removal drops a trailing prompt line. -/
theorem stripPromptTail_concat (body : List String) (lastl : String)
    (hp : (pyContains "#" (pyStrip lastl) || pyContains ">" (pyStrip lastl)) = true) :
    stripPromptTail (body ++ [lastl]) = body := by
  unfold stripPromptTail
  rw [if_pos (by simp), List.getLastD_concat, if_pos hp, List.dropLast_concat]

/-- Prompt-tail removal keeps a list whose last line is not prompt text. -/
theorem stripPromptTail_noprompt (lines : List String)
    (hp : (pyContains "#" (pyStrip (lines.getLastD ""))
        || pyContains ">" (pyStrip (lines.getLastD ""))) = false) :
    stripPromptTail lines = lines := by
  unfold stripPromptTail
  by_cases hl : 0 < lines.length
  · rw [if_pos hl,
      if_neg (by intro hh; rw [hp] at hh; exact absurd hh (by decide))]
  · rw [if_neg hl]

/-- **C8.** The session driver's post-processing strips the first line of
the accumulated buffer (the echoed command) and strips the last line when
that line is prompt text (its stripped form contains `#` or `>`); the
remaining lines, joined, are the command's output. -/
theorem session_postprocess :
    (∀ (buf cmd lastl : String) (body : List String),
      pySplitlines buf = cmd :: (body ++ [lastl]) →
      (pyContains "#" (pyStrip lastl) || pyContains ">" (pyStrip lastl)) = true →
      robustClean buf = joinNL body) ∧
    (∀ (buf cmd : String) (rest : List String),
      pySplitlines buf = cmd :: rest →
      (pyContains "#" (pyStrip (rest.getLastD ""))
        || pyContains ">" (pyStrip (rest.getLastD ""))) = false →
      robustClean buf = joinNL rest) := by
  constructor
  · intro buf cmd lastl body h hp
    unfold robustClean
    rw [h]
    dsimp only
    rw [if_pos (by simp), List.tail_cons, stripPromptTail_concat body lastl hp]
  · intro buf cmd rest h hp
    unfold robustClean
    rw [h]
    dsimp only
    rw [if_pos (by simp), List.tail_cons, stripPromptTail_noprompt rest hp]

/-- Witness for C8: a three-line buffer with a trailing prompt cleans to
its middle line. -/
theorem session_postprocess_witness :
    pySplitlines "show version\r\nCisco IOS Software\r\nRouter#"
        = "show version" :: (["Cisco IOS Software"] ++ ["Router#"]) ∧
      robustClean "show version\r\nCisco IOS Software\r\nRouter#"
        = joinNL ["Cisco IOS Software"] :=
  ⟨by decide,
    session_postprocess.1 "show version\r\nCisco IOS Software\r\nRouter#"
      "show version" "Router#" ["Cisco IOS Software"] (by decide) (by decide)⟩

/-! ## Exact model of Python binary64 arithmetic for the memory
percentage

`int((used / total) * 100)` in Python divides two ints into a binary64
double (round to nearest, ties to even), multiplies by 100 rounding the
same way, and truncates toward zero.  Both intermediate values are in the
normal double range for every byte count a device can report, so the
model rounds to a 53-bit significand and ignores subnormals/overflow. -/

/-- Bit length of a natural number (fuel-bounded structural recursion so
the kernel can evaluate it; 128 bits of fuel covers every value arising
here). -/
def bitsAux : ℕ → ℕ → ℕ
  | 0, _ => 0
  | fuel + 1, n => if n = 0 then 0 else bitsAux fuel (n / 2) + 1

/-- Bit length wrapper. -/
def nbits (n : ℕ) : ℕ := bitsAux 128 n

/-- Round the nonnegative rational a/b to the nearest integer, ties to
even (the IEEE-754 default rounding), for b > 0. -/
def rneDiv (a b : ℕ) : ℕ :=
  let q := a / b
  let r := a % b
  if 2 * r < b then q
  else if b < 2 * r then q + 1
  else if q % 2 = 0 then q else q + 1

/-- Floor of the base-2 logarithm of the positive rational a/b. -/
def ratLog2 (a b : ℕ) : ℤ :=
  let d : ℤ := (nbits a : ℤ) - (nbits b : ℤ)
  if 0 ≤ d then (if b * 2 ^ d.toNat ≤ a then d else d - 1)
  else (if b ≤ a * 2 ^ (-d).toNat then d else d - 1)

/-- The binary64 double nearest to the positive rational a/b, returned as
an exact rational: a 53-bit significand scaled by the exponent. -/
def roundFloat (a b : ℕ) : ℕ × ℕ :=
  let e := ratLog2 a b
  if 52 ≤ e then
    (rneDiv a (b * 2 ^ (e - 52).toNat) * 2 ^ (e - 52).toNat, 1)
  else
    (rneDiv (a * 2 ^ (52 - e).toNat) b, 2 ^ (52 - e).toNat)

/-- `int((u / t) * 100)` in Python binary64 arithmetic for nonnegative
`u` and positive `t`: round `u/t` to a double, multiply by 100 rounding
again, truncate toward zero. -/
def pyMemPercent (u t : ℕ) : ℕ :=
  if u = 0 ∨ t = 0 then 0
  else
    let p := roundFloat u t
    let q := roundFloat (100 * p.1) p.2
    q.1 / q.2

/-- `int((u / t) * 100)` for a possibly negative `u` (binary64 rounding
and `int()` truncation are both symmetric in the sign). -/
def pyMemPercentZ (u t : ℤ) : ℤ :=
  if u < 0 then -(pyMemPercent u.natAbs t.natAbs : ℤ)
  else (pyMemPercent u.natAbs t.natAbs : ℤ)

/-! ## Memory analyzer (src/analyzers/memory_analyzer.py) and the
show-process-memory branch of the collector
(src/collectors/device_collector.py) -/

/-- One structured memory entry (a TextFSM row dict with the fields the
analyzers read). -/
structure MemEntry where
  pool : String
  total : ℤ
  used : ℤ
  free : ℤ
deriving DecidableEq, Repr

/-- The mutable locals shared by both memory code paths:
`total_memory`, `used_memory`, `free_memory`, `memory_used_percent`,
`memory_status`, initialised to 0/0/0/0/Unknown. -/
structure MemState where
  total : ℤ
  used : ℤ
  free : ℤ
  percent : ℤ
  status : String
deriving DecidableEq, Repr

/-- The initial memory-parsing state. -/
def memInit : MemState := ⟨0, 0, 0, 0, "Unknown"⟩

/-- The shared tail of every successful parse:
`if total_memory > 0: memory_used_percent = int((used/total)*100);
memory_status = "OK" if percent < 80 else "CRITICAL"`. -/
def memFinish (st : MemState) : MemState :=
  if 0 < st.total then
    let pct := pyMemPercentZ st.used st.total
    { st with percent := pct
              status := if pct < 80 then "OK" else "CRITICAL" }
  else st

/-- The returned record of `MemoryAnalyzer.analyze` (the `details`
threshold echo is not modelled); byte counts are converted to MB by
integer division when positive. -/
structure MemVerdict where
  status : String
  memory_used_percent : ℤ
  memory_total_mb : ℤ
  memory_used_mb : ℤ
  memory_free_mb : ℤ
deriving DecidableEq, Repr

/-- Build the result record from the final state
(`x // (1024*1024) if x > 0 else 0` for each MB field). -/
def mkVerdict (st : MemState) : MemVerdict :=
  { status := st.status
    memory_used_percent := st.percent
    memory_total_mb := if 0 < st.total then ((st.total.toNat / (1024 * 1024) : ℕ) : ℤ) else 0
    memory_used_mb := if 0 < st.used then ((st.used.toNat / (1024 * 1024) : ℕ) : ℤ) else 0
    memory_free_mb := if 0 < st.free then ((st.free.toNat / (1024 * 1024) : ℕ) : ℤ) else 0 }

/-- The structured-data loop shared by both memory code paths: find the
first entry whose lowercased pool name contains `processor`. -/
def memFindProcessor : List MemEntry → Option MemEntry
  | [] => none
  | e :: rest =>
      if pyContains "processor" (pyLower e.pool) then some e
      else memFindProcessor rest

/-- The structured-data branch (src/analyzers/memory_analyzer.py lines
33-45 and src/collectors/device_collector.py lines 274-283): read
total/used/free from the first processor-pool entry, then the shared
percentage/status tail; no processor entry leaves everything unset. -/
def memoryAnalyzeStructured (l : List MemEntry) : MemState :=
  match memFindProcessor l with
  | some e => memFinish { memInit with total := e.total, used := e.used, free := e.free }
  | none => memInit

/-- The header test of the analyzer's manual parser
(src/analyzers/memory_analyzer.py line 60), applied to the raw line. -/
def memHeader (line : String) : Bool :=
  pyContains "Head" line && pyContains "Total(b)" line && pyContains "Used(b)" line

/-- Parsing the data row under a header line
(src/analyzers/memory_analyzer.py lines 65-83): the stripped next line
must start with `Processor` and split into at least five parts; parts
2/3/4 are converted by `int()` in order (a conversion failure keeps the
assignments already made and continues the scan); a full parse runs the
shared tail and breaks.  The Bool is the `break` flag. -/
def memParseRow (next : String) (st : MemState) : MemState × Bool :=
  if pyStartsWith "Processor" next then
    match pySplit next with
    | _p0 :: _p1 :: tS :: uS :: fS :: _ =>
        (match pyIntOfString tS with
         | none => (st, false)
         | some tv =>
             let st1 := { st with total := tv }
             match pyIntOfString uS with
             | none => (st1, false)
             | some uv =>
                 let st2 := { st1 with used := uv }
                 match pyIntOfString fS with
                 | none => (st2, false)
                 | some fv => (memFinish { st2 with free := fv }, true))
    | _ => (st, false)
  else (st, false)

/-- The manual scan loop of `MemoryAnalyzer.analyze`
(src/analyzers/memory_analyzer.py lines 54-83): at each header line,
examine the following line (when there is one) as a data row; stop on the
break flag. -/
def memScanAux : List String → MemState → MemState
  | [], st => st
  | line :: rest, st =>
      if memHeader line then
        match rest with
        | [] => st
        | next :: _ =>
            let pr := memParseRow (pyStrip next) st
            if pr.2 then pr.1 else memScanAux rest pr.1
      else memScanAux rest st

/-- The manual (except-branch) parser of `MemoryAnalyzer.analyze`. -/
def memoryAnalyzeManual (raw : String) : MemState :=
  memScanAux (pySplitlines raw) memInit

/-- `MemoryAnalyzer.analyze` (src/analyzers/memory_analyzer.py lines
10-107): a non-empty structured list takes the structured branch (whose
entries here are already numeric, so it cannot raise); anything else
raises and falls to the manual parser on the raw text. -/
def memoryAnalyze (structured : Option (List MemEntry)) (raw : String) :
    MemVerdict :=
  let st :=
    match structured with
    | some l => if 0 < l.length then memoryAnalyzeStructured l
                else memoryAnalyzeManual raw
    | none => memoryAnalyzeManual raw
  mkVerdict st

/-- Pattern 1 of the collector's memory fallback
(src/collectors/device_collector.py lines 293-309): scan the tokens of a
`Processor Pool Total: ... Used: ... Free: ...` line; each keyword token
reads `int(parts[i+1])` into the matching variable.  A missing next token
or a failed `int()` is the Python exception: the scan aborts keeping the
assignments already made (the Bool is the exception flag). -/
def collP1Loop : List String → MemState → MemState × Bool
  | [], st => (st, false)
  | tok :: rest, st =>
      if tok = "Total:" then
        match rest with
        | [] => (st, true)
        | nxt :: _ =>
            match pyIntOfString nxt with
            | none => (st, true)
            | some v => collP1Loop rest { st with total := v }
      else if tok = "Used:" then
        match rest with
        | [] => (st, true)
        | nxt :: _ =>
            match pyIntOfString nxt with
            | none => (st, true)
            | some v => collP1Loop rest { st with used := v }
      else if tok = "Free:" then
        match rest with
        | [] => (st, true)
        | nxt :: _ =>
            match pyIntOfString nxt with
            | none => (st, true)
            | some v => collP1Loop rest { st with free := v }
      else collP1Loop rest st

/-- Pattern 2 of the collector's memory fallback
(src/collectors/device_collector.py lines 311-325): a `Processor`-bearing
line without `Pool`, split into at least four parts, reads
`int(parts[1..3])` in order; a conversion failure keeps earlier
assignments and continues.  The Bool is the `break` flag. -/
def collPattern2 (line : String) (st : MemState) : MemState × Bool :=
  if pyContains "Processor" line && !(pyContains "Pool" line) then
    match pySplit line with
    | _p0 :: p1 :: p2 :: p3 :: _ =>
        (match pyIntOfString p1 with
         | none => (st, false)
         | some tv =>
             let st1 := { st with total := tv }
             match pyIntOfString p2 with
             | none => (st1, false)
             | some uv =>
                 let st2 := { st1 with used := uv }
                 match pyIntOfString p3 with
                 | none => (st2, false)
                 | some fv => (memFinish { st2 with free := fv }, true))
    | _ => (st, false)
  else (st, false)

/-- One line of the collector's memory fallback: pattern 1 when the line
contains both `Processor` and `Total:` (breaking on success, falling
through to pattern 2 with the incomplete state on exception), otherwise
pattern 2. -/
def collLineStep (line : String) (st : MemState) : MemState × Bool :=
  if pyContains "Processor" line && pyContains "Total:" line then
    let p1 := collP1Loop (pySplit line) st
    if p1.2 then collPattern2 line p1.1
    else (memFinish p1.1, true)
  else collPattern2 line st

/-- The collector's memory fallback loop over stripped lines
(src/collectors/device_collector.py lines 289-325). -/
def collMemScan : List String → MemState → MemState
  | [], st => st
  | line :: rest, st =>
      let step := collLineStep (pyStrip line) st
      if step.2 then step.1 else collMemScan rest step.1

/-- The `show process memory` branch of `process_parsed_data`
(src/collectors/device_collector.py lines 265-338): structured data when
it is a non-empty list, otherwise the two-pattern manual fallback on the
raw text; the same summary fields are produced as by
`MemoryAnalyzer.analyze`. -/
def collectorMemAnalyze (structured : Option (List MemEntry))
    (raw : String) : MemVerdict :=
  let st :=
    match structured with
    | some l => if 0 < l.length then memoryAnalyzeStructured l
                else collMemScan (pySplitlines raw) memInit
    | none => collMemScan (pySplitlines raw) memInit
  mkVerdict st

/-- The shared percentage/status tail, characterised: with a positive
total, status is CRITICAL exactly when the computed percentage reaches
80, and the percentage is the binary64 value of `int((u/t)*100)`. -/
theorem memFinish_critical_iff (st : MemState) (h : 0 < st.total) :
    ((memFinish st).status = "CRITICAL" ↔ 80 ≤ (memFinish st).percent) ∧
      (memFinish st).percent = pyMemPercentZ st.used st.total := by
  unfold memFinish
  rw [if_pos h]
  dsimp only
  refine ⟨?_, rfl⟩
  by_cases hp : pyMemPercentZ st.used st.total < 80
  · rw [if_pos hp]
    exact iff_of_false (by decide) (fun hh => absurd hp (not_lt.mpr hh))
  · rw [if_neg hp]
    exact iff_of_true rfl (not_lt.mp hp)

/-- **C4, counterexample.** The claim says the used percentage is the
truncation of 100·u/t; at t = 100, u = 29 the code computes 28 (the
binary64 product `(29/100)*100` is just below 29 and `int()` truncates
it), while trunc(100·29/100) = 29. -/
theorem mem_truncation_cex :
    (memoryAnalyze
        (some [{ pool := "Processor", total := 100, used := 29, free := 71 }])
        "").memory_used_percent = 28 ∧
      ¬((memoryAnalyze
          (some [{ pool := "Processor", total := 100, used := 29, free := 71 }])
          "").memory_used_percent = ((100 * 29 : ℤ) / 100)) := by
  decide

/-- **C4, amended.** For totals t > 0 the memory analyzer truncates (it
never rounds up) the binary64 product `(u/t)*100`, and status is CRITICAL
iff that truncated percentage is at least 80 (strictly-less-than 80 is
OK): t=100,u=79 gives 79% and OK; t=100,u=80 gives 80% and CRITICAL; the
result can fall below the exact truncation of 100·u/t, e.g. t=100,u=29
gives 28%. -/
theorem mem_percent_amended :
    (∀ (t u f : ℤ) (raw : String), 0 < t →
      (((memoryAnalyze
          (some [{ pool := "Processor", total := t, used := u, free := f }])
          raw).status = "CRITICAL" ↔
        80 ≤ (memoryAnalyze
          (some [{ pool := "Processor", total := t, used := u, free := f }])
          raw).memory_used_percent) ∧
       (memoryAnalyze
          (some [{ pool := "Processor", total := t, used := u, free := f }])
          raw).memory_used_percent = pyMemPercentZ u t)) ∧
    (memoryAnalyze
      (some [{ pool := "Processor", total := 100, used := 79, free := 21 }])
      "").memory_used_percent = 79 ∧
    (memoryAnalyze
      (some [{ pool := "Processor", total := 100, used := 79, free := 21 }])
      "").status = "OK" ∧
    (memoryAnalyze
      (some [{ pool := "Processor", total := 100, used := 80, free := 20 }])
      "").memory_used_percent = 80 ∧
    (memoryAnalyze
      (some [{ pool := "Processor", total := 100, used := 80, free := 20 }])
      "").status = "CRITICAL" ∧
    (memoryAnalyze
      (some [{ pool := "Processor", total := 100, used := 29, free := 71 }])
      "").memory_used_percent = 28 := by
  refine ⟨?_, by decide, by decide, by decide, by decide, by decide⟩
  intro t u f raw ht
  have hred : memoryAnalyze
      (some [{ pool := "Processor", total := t, used := u, free := f }]) raw
      = mkVerdict (memFinish ⟨t, u, f, 0, "Unknown"⟩) := rfl
  rw [hred]
  exact memFinish_critical_iff ⟨t, u, f, 0, "Unknown"⟩ ht

/-- Witness for the amended C4 theorem at t=100, u=80. -/
theorem mem_percent_amended_witness :
    (0 : ℤ) < 100 ∧
      (((memoryAnalyze
          (some [{ pool := "Processor", total := 100, used := 80, free := 20 }])
          "").status = "CRITICAL") ↔
        80 ≤ (memoryAnalyze
          (some [{ pool := "Processor", total := 100, used := 80, free := 20 }])
          "").memory_used_percent) :=
  ⟨by decide, (mem_percent_amended.1 100 80 20 "" (by decide)).1⟩

/-- A string accepted by `int()` is not a given string rejected by it. -/
theorem intParse_ne_keyword (s : String) (v : ℤ) (h : pyIntOfString s = some v)
    (w : String) (hw : pyIntOfString w = none) : s ≠ w := by
  intro hh
  rw [hh, hw] at h
  cases h

/-- With a positive total, the shared tail never leaves status Unknown. -/
theorem memFinish_status_ne (st : MemState) (h : 0 < st.total) :
    (memFinish st).status ≠ "Unknown" := by
  unfold memFinish
  rw [if_pos h]
  dsimp only
  by_cases hp : pyMemPercentZ st.used st.total < 80
  · rw [if_pos hp]; decide
  · rw [if_neg hp]; decide

/-- Non-header lines are skipped by the analyzer's manual scan. -/
theorem memScanAux_skip (pre L : List String) (st : MemState)
    (hpre : ∀ l ∈ pre, memHeader l = false) :
    memScanAux (pre ++ L) st = memScanAux L st := by
  induction pre with
  | nil => rfl
  | cons l rest ih =>
      rw [List.cons_append]
      have hl : memHeader l = false := hpre l (List.mem_cons_self l rest)
      simp only [memScanAux, hl]
      exact ih (fun x hx => hpre x (List.mem_cons_of_mem l hx))

/-- A well-formed Processor data row parses fully and sets the break
flag. -/
theorem memParseRow_success (next p0 p1 tS uS fS : String) (ps : List String)
    (t u f : ℤ) (st : MemState)
    (hstart : pyStartsWith "Processor" next = true)
    (hparts : pySplit next = p0 :: p1 :: tS :: uS :: fS :: ps)
    (htv : pyIntOfString tS = some t)
    (huv : pyIntOfString uS = some u)
    (hfv : pyIntOfString fS = some f) :
    memParseRow next st
      = (memFinish { st with total := t, used := u, free := f }, true) := by
  simp [memParseRow, hstart, hparts, htv, huv, hfv]

/-- Part A of C5: the analyzer's fallback extracts the fixed-column
header+data-row layout. -/
theorem memory_analyzer_fixed_column
    (pre post : List String) (hline dline p0 p1 tS uS fS : String)
    (ps : List String) (t u f : ℤ) (raw : String)
    (hsplit : pySplitlines raw = pre ++ hline :: dline :: post)
    (hpre : ∀ l ∈ pre, memHeader l = false)
    (hh : memHeader hline = true)
    (hstart : pyStartsWith "Processor" (pyStrip dline) = true)
    (hparts : pySplit (pyStrip dline) = p0 :: p1 :: tS :: uS :: fS :: ps)
    (htv : pyIntOfString tS = some t)
    (huv : pyIntOfString uS = some u)
    (hfv : pyIntOfString fS = some f) :
    memoryAnalyze none raw
      = mkVerdict (memFinish ⟨t, u, f, 0, "Unknown"⟩) ∧
      (0 < t → (memoryAnalyze none raw).status ≠ "Unknown") := by
  have hscan : memoryAnalyzeManual raw = memFinish ⟨t, u, f, 0, "Unknown"⟩ := by
    unfold memoryAnalyzeManual
    rw [hsplit, memScanAux_skip pre _ memInit hpre]
    simp only [memScanAux, hh]
    rw [memParseRow_success (pyStrip dline) p0 p1 tS uS fS ps t u f memInit
      hstart hparts htv huv hfv]
    simp [memInit]
  have hres : memoryAnalyze none raw = mkVerdict (memFinish ⟨t, u, f, 0, "Unknown"⟩) := by
    unfold memoryAnalyze
    dsimp only
    rw [hscan]
  refine ⟨hres, ?_⟩
  intro ht
  rw [hres]
  exact memFinish_status_ne ⟨t, u, f, 0, "Unknown"⟩ ht

/-- A line without `Processor` matches neither collector pattern. -/
theorem collLineStep_skip (line : String) (st : MemState)
    (h : pyContains "Processor" line = false) :
    collLineStep line st = (st, false) := by
  unfold collLineStep collPattern2
  rw [h]
  simp

/-- Processor-free lines are skipped by the collector's memory scan. -/
theorem collMemScan_skip (pre L : List String) (st : MemState)
    (hpre : ∀ l ∈ pre, pyContains "Processor" (pyStrip l) = false) :
    collMemScan (pre ++ L) st = collMemScan L st := by
  induction pre with
  | nil => rfl
  | cons l rest ih =>
      rw [List.cons_append]
      simp only [collMemScan,
        collLineStep_skip (pyStrip l) st (hpre l (List.mem_cons_self l rest))]
      exact ih (fun x hx => hpre x (List.mem_cons_of_mem l hx))

/-- The token scan of collector pattern 1 on a well-formed
`Processor Pool Total: t Used: u Free: f` token list assigns all three
values without raising. -/
theorem collP1Loop_freetext (tS uS fS : String) (t u f : ℤ) (st : MemState)
    (htv : pyIntOfString tS = some t)
    (huv : pyIntOfString uS = some u)
    (hfv : pyIntOfString fS = some f) :
    collP1Loop ["Processor", "Pool", "Total:", tS, "Used:", uS, "Free:", fS] st
      = ({ st with total := t, used := u, free := f }, false) := by
  have n1 : tS ≠ "Total:" := intParse_ne_keyword tS t htv "Total:" (by decide)
  have n2 : tS ≠ "Used:" := intParse_ne_keyword tS t htv "Used:" (by decide)
  have n3 : tS ≠ "Free:" := intParse_ne_keyword tS t htv "Free:" (by decide)
  have n4 : uS ≠ "Total:" := intParse_ne_keyword uS u huv "Total:" (by decide)
  have n5 : uS ≠ "Used:" := intParse_ne_keyword uS u huv "Used:" (by decide)
  have n6 : uS ≠ "Free:" := intParse_ne_keyword uS u huv "Free:" (by decide)
  have n7 : fS ≠ "Total:" := intParse_ne_keyword fS f hfv "Total:" (by decide)
  have n8 : fS ≠ "Used:" := intParse_ne_keyword fS f hfv "Used:" (by decide)
  have n9 : fS ≠ "Free:" := intParse_ne_keyword fS f hfv "Free:" (by decide)
  simp [collP1Loop, htv, huv, hfv, n1, n2, n3, n4, n5, n6, n7, n8, n9]

/-- Part B of C5: the collector's fallback extracts the free-text
`Total:/Used:/Free:` layout. -/
theorem collector_memory_free_text
    (pre post : List String) (gline tS uS fS : String) (t u f : ℤ)
    (raw : String)
    (hsplit : pySplitlines raw = pre ++ gline :: post)
    (hpre : ∀ l ∈ pre, pyContains "Processor" (pyStrip l) = false)
    (hcp : pyContains "Processor" (pyStrip gline) = true)
    (hct : pyContains "Total:" (pyStrip gline) = true)
    (hparts : pySplit (pyStrip gline)
      = ["Processor", "Pool", "Total:", tS, "Used:", uS, "Free:", fS])
    (htv : pyIntOfString tS = some t)
    (huv : pyIntOfString uS = some u)
    (hfv : pyIntOfString fS = some f) :
    collectorMemAnalyze none raw
      = mkVerdict (memFinish ⟨t, u, f, 0, "Unknown"⟩) ∧
      (0 < t → (collectorMemAnalyze none raw).status ≠ "Unknown") := by
  have hstep : collLineStep (pyStrip gline) memInit
      = (memFinish ⟨t, u, f, 0, "Unknown"⟩, true) := by
    unfold collLineStep
    rw [hcp, hct]
    simp only [Bool.true_and, if_true]
    rw [hparts, collP1Loop_freetext tS uS fS t u f memInit htv huv hfv]
    simp [memInit]
  have hscan : collMemScan (pySplitlines raw) memInit
      = memFinish ⟨t, u, f, 0, "Unknown"⟩ := by
    rw [hsplit, collMemScan_skip pre _ memInit hpre]
    simp only [collMemScan, hstep]
    simp
  have hres : collectorMemAnalyze none raw
      = mkVerdict (memFinish ⟨t, u, f, 0, "Unknown"⟩) := by
    unfold collectorMemAnalyze
    dsimp only
    rw [hscan]
  refine ⟨hres, ?_⟩
  intro ht
  rw [hres]
  exact memFinish_status_ne ⟨t, u, f, 0, "Unknown"⟩ ht

/-- **C5, counterexample.** The claim says the memory analyzer's fallback
parsing extracts the byte counts from either supported layout; on the
free-text `Total:/Used:/Free:` layout `MemoryAnalyzer.analyze` extracts
nothing (status Unknown, all fields zero) — that layout is handled only
by the collector's show-process-memory fallback, which parses it to
status OK here. -/
theorem memory_free_text_unparsed_cex :
    memoryAnalyze none
        "Processor Pool Total:  1859096064 Used:   340603232 Free:  1518492832"
      = { status := "Unknown", memory_used_percent := 0, memory_total_mb := 0,
          memory_used_mb := 0, memory_free_mb := 0 } ∧
      (collectorMemAnalyze none
        "Processor Pool Total:  1859096064 Used:   340603232 Free:  1518492832").status
        = "OK" := by
  decide

/-- **C5, amended.** The two supported memory layouts are extracted by
two different fallback parsers: `MemoryAnalyzer.analyze`'s fallback
extracts total/used/free from the fixed-column header+data-row layout,
and the show-process-memory fallback in `device_collector` extracts them
from the free-text `Total: n Used: n Free: n` layout; each produces a
non-Unknown status when the extracted total is positive. -/
theorem memory_two_layouts :
    (∀ (pre post : List String) (hline dline p0 p1 tS uS fS : String)
       (ps : List String) (t u f : ℤ) (raw : String),
      pySplitlines raw = pre ++ hline :: dline :: post →
      (∀ l ∈ pre, memHeader l = false) →
      memHeader hline = true →
      pyStartsWith "Processor" (pyStrip dline) = true →
      pySplit (pyStrip dline) = p0 :: p1 :: tS :: uS :: fS :: ps →
      pyIntOfString tS = some t →
      pyIntOfString uS = some u →
      pyIntOfString fS = some f →
      memoryAnalyze none raw = mkVerdict (memFinish ⟨t, u, f, 0, "Unknown"⟩) ∧
        (0 < t → (memoryAnalyze none raw).status ≠ "Unknown")) ∧
    (∀ (pre post : List String) (gline tS uS fS : String) (t u f : ℤ)
       (raw : String),
      pySplitlines raw = pre ++ gline :: post →
      (∀ l ∈ pre, pyContains "Processor" (pyStrip l) = false) →
      pyContains "Processor" (pyStrip gline) = true →
      pyContains "Total:" (pyStrip gline) = true →
      pySplit (pyStrip gline)
        = ["Processor", "Pool", "Total:", tS, "Used:", uS, "Free:", fS] →
      pyIntOfString tS = some t →
      pyIntOfString uS = some u →
      pyIntOfString fS = some f →
      collectorMemAnalyze none raw = mkVerdict (memFinish ⟨t, u, f, 0, "Unknown"⟩) ∧
        (0 < t → (collectorMemAnalyze none raw).status ≠ "Unknown")) :=
  ⟨memory_analyzer_fixed_column, collector_memory_free_text⟩

/-- Witness for the amended C5 theorem: each parser applied to a concrete
sample of its own layout. -/
theorem memory_two_layouts_witness :
    memoryAnalyze none
        "          Head    Total(b)     Used(b)     Free(b)   Lowest(b)  Largest(b)\nProcessor  65BD3F10   315565420   253776452    61788968    60649816    58493096"
      = mkVerdict (memFinish ⟨315565420, 253776452, 61788968, 0, "Unknown"⟩) ∧
      collectorMemAnalyze none
        "Processor Pool Total:  1859096064 Used:   340603232 Free:  1518492832"
      = mkVerdict (memFinish ⟨1859096064, 340603232, 1518492832, 0, "Unknown"⟩) :=
  ⟨(memory_two_layouts.1 [] []
      "          Head    Total(b)     Used(b)     Free(b)   Lowest(b)  Largest(b)"
      "Processor  65BD3F10   315565420   253776452    61788968    60649816    58493096"
      "Processor" "65BD3F10" "315565420" "253776452" "61788968"
      ["60649816", "58493096"] 315565420 253776452 61788968
      "          Head    Total(b)     Used(b)     Free(b)   Lowest(b)  Largest(b)\nProcessor  65BD3F10   315565420   253776452    61788968    60649816    58493096"
      (by decide) (by decide) (by decide) (by decide) (by decide) (by decide)
      (by decide) (by decide)).1,
   (memory_two_layouts.2 [] []
      "Processor Pool Total:  1859096064 Used:   340603232 Free:  1518492832"
      "1859096064" "340603232" "1518492832" 1859096064 340603232 1518492832
      "Processor Pool Total:  1859096064 Used:   340603232 Free:  1518492832"
      (by decide) (by decide) (by decide) (by decide) (by decide) (by decide)
      (by decide) (by decide)).1⟩
